import Mathlib

/-!
Verification development for the responsive navigation-overflow heuristic of
the Fruit Tree front-end (src/components/Navigation.jsx).  The definitions
below are a shallow embedding of the layout logic of the component: pixel
quantities are modelled as integers (every width constant in the source is
an integer; JavaScript number arithmetic on these values is exact), the
browser environment (window, container element, canvas text measurement) is
an explicit record of inputs, and the callbacks of the component become pure
functions of that record.  The one genuinely fractional computation, the
zoom estimate outerWidth / innerWidth * 100, is carried out in ℚ.
-/

/-- Display richness modes of the navigation bar
(Navigation.jsx line 37: full, compact, icon, mobile). -/
inductive Mode where
  | full
  | compact
  | icon
  | mobile
deriving DecidableEq, Repr

/-- One navigation item, as declared in the navItems array
(Navigation.jsx lines 20-33).  The icon component reference carries no
layout information and is omitted. -/
structure NavItem where
  id : String
  label : String
  shortLabel : String
  priority : Nat
  alwaysVisible : Bool
deriving DecidableEq, Repr

def itemDashboard : NavItem :=
  { id := "dashboard", label := "Dashboard", shortLabel := "Dash", priority := 1, alwaysVisible := true }

def itemMembers : NavItem :=
  { id := "members", label := "People", shortLabel := "People", priority := 2, alwaysVisible := true }

def itemGiving : NavItem :=
  { id := "giving", label := "Giving", shortLabel := "Give", priority := 3, alwaysVisible := true }

def itemGroups : NavItem :=
  { id := "groups", label := "Groups", shortLabel := "Groups", priority := 4, alwaysVisible := false }

def itemForms : NavItem :=
  { id := "forms", label := "Forms", shortLabel := "Forms", priority := 5, alwaysVisible := false }

def itemCalendar : NavItem :=
  { id := "calendar", label := "Calendar", shortLabel := "Cal", priority := 6, alwaysVisible := false }

def itemWorkflows : NavItem :=
  { id := "workflows", label := "Workflows", shortLabel := "Work", priority := 7, alwaysVisible := false }

def itemReports : NavItem :=
  { id := "reports", label := "Reports", shortLabel := "Reports", priority := 8, alwaysVisible := false }

def itemSettings : NavItem :=
  { id := "settings", label := "Settings", shortLabel := "Set", priority := 9, alwaysVisible := false }

/-- The hardcoded item set of the Navigation component
(Navigation.jsx lines 20-33). -/
def navItems : List NavItem :=
  [itemDashboard, itemMembers, itemGiving, itemGroups, itemForms,
   itemCalendar, itemWorkflows, itemReports, itemSettings]

/-- Browser-environment inputs consumed by the component: presence of a
global window, window.innerWidth and window.outerWidth, the measured
container width when navContainerRef.current is mounted, the canvas
2d-context text measurement (font specification and text to width), and the
current navigationMode state (read back by calculateAvailableSpace,
Navigation.jsx line 94). -/
structure Env where
  hasWindow : Bool
  innerWidth : ℤ
  outerWidth : ℤ
  containerWidth : Option ℤ
  measureText : String → String → ℤ
  navigationMode : Mode

/-- Font string built by measureItemWidth (Navigation.jsx lines 57-59):
fontWeight 600, fontSize 15px in compact mode and 16px otherwise. -/
def fontFor (mode : Mode) : String :=
  "600 " ++ (if mode = Mode.compact then "15px" else "16px") ++ " Inter, system-ui, sans-serif"

/-- Embedding of measureItemWidth (Navigation.jsx lines 49-67): fallback 80
when window is undefined, otherwise measured text width plus 72px of fixed
chrome (icon 20 + icon margin 12 + padding 32 + spacing 8). -/
def measureItemWidth (env : Env) (item : NavItem) (mode : Mode) : ℤ :=
  if env.hasWindow = false then 80
  else
    let text := if mode = Mode.compact
      then (if item.shortLabel ≠ "" then item.shortLabel else item.label)
      else item.label
    env.measureText (fontFor mode) text + 72

/-- Embedding of calculateAvailableSpace (Navigation.jsx lines 70-99). -/
def calculateAvailableSpace (env : Env) : ℤ :=
  if env.hasWindow = false then 400
  else if env.innerWidth < 768 then
    env.innerWidth - 100
  else
    match env.containerWidth with
    | some containerWidth =>
        max (containerWidth - 80 - 40) 200
    | none =>
        let logoAreaWidth : ℤ := if env.navigationMode = Mode.icon then 200 else 320
        let userAreaWidth : ℤ := 280
        max (env.innerWidth - logoAreaWidth - userAreaWidth - 120) 200

/-- Stable insertion step for sorting by ascending priority, modelling the
JavaScript sort comparator (a, b) => a.priority - b.priority. -/
def insertP (a : NavItem) : List NavItem → List NavItem
  | [] => [a]
  | b :: l => if b.priority ≤ a.priority then b :: insertP a l else a :: b :: l

/-- Sort a list of items by ascending priority (insertion sort). -/
def sortByPriority (l : List NavItem) : List NavItem :=
  l.foldr insertP []

/-- The greedy loop shared by the three mode passes of calculateVisibleItems
(Navigation.jsx lines 135-143, 158-166, 180-187): walk the dynamic items in
priority order, adding each whose width still fits in the budget, and stop
at the first item that does not fit. -/
def greedyAdd (m : NavItem → ℤ) (budget : ℤ) : List NavItem → ℤ → List NavItem
  | [], _ => []
  | i :: rest, cur =>
      if cur + m i ≤ budget then i :: greedyAdd m budget rest (cur + m i) else []

/-- coreItems of calculateVisibleItems (Navigation.jsx line 121). -/
def coreItems : List NavItem := navItems.filter (fun item => item.alwaysVisible)

/-- dynamicItems of calculateVisibleItems (Navigation.jsx line 122). -/
def dynamicItems : List NavItem :=
  sortByPriority (navItems.filter (fun item => !item.alwaysVisible))

/-- Full-mode pass (Navigation.jsx lines 124-143): core items always
included, width accumulator seeded with their full-mode widths, dynamic
items added greedily. -/
def fullPass (env : Env) (availableSpace : ℤ) : List NavItem :=
  coreItems ++ greedyAdd (fun item => measureItemWidth env item Mode.full) availableSpace
    dynamicItems ((coreItems.map (fun item => measureItemWidth env item Mode.full)).sum)

/-- Compact-mode pass (Navigation.jsx lines 147-167). -/
def compactPass (env : Env) (availableSpace : ℤ) : List NavItem :=
  coreItems ++ greedyAdd (fun item => measureItemWidth env item Mode.compact) availableSpace
    dynamicItems ((coreItems.map (fun item => measureItemWidth env item Mode.compact)).sum)

/-- Icon-mode pass (Navigation.jsx lines 169-188): every item occupies a
flat 60px. -/
def iconPass (_env : Env) (availableSpace : ℤ) : List NavItem :=
  coreItems ++ greedyAdd (fun _ => 60) availableSpace dynamicItems (60 * coreItems.length)

/-- The layout produced for the navigation bar. -/
structure LayoutState where
  mode : Mode
  visible : List NavItem
  hidden : List NavItem
deriving DecidableEq, Repr

/-- Closing steps of calculateVisibleItems (Navigation.jsx lines 190-196):
sort the visible items by priority and compute the hidden items as the
navItems whose id is matched by no visible item. -/
def finish (mode : Mode) (visibleUnsorted : List NavItem) : LayoutState :=
  let visible := sortByPriority visibleUnsorted
  { mode := mode
  , visible := visible
  , hidden := navItems.filter (fun item => !(visible.any (fun v => v.id == item.id))) }

/-- Mode selection of calculateVisibleItems for a given budget
(Navigation.jsx lines 118-196): full mode if every item fits in full mode;
otherwise compact; icon as last resort when compact placed fewer than 4
items. -/
def layoutForBudget (env : Env) (availableSpace : ℤ) : LayoutState :=
  if (fullPass env availableSpace).length = navItems.length then
    finish Mode.full (fullPass env availableSpace)
  else if (compactPass env availableSpace).length < 4 then
    finish Mode.icon (iconPass env availableSpace)
  else
    finish Mode.compact (compactPass env availableSpace)

/-- Embedding of calculateVisibleItems (Navigation.jsx lines 102-197):
window-undefined fallback, mobile branch below 768px, then the budget-driven
mode selection. -/
def calculateVisibleItems (env : Env) : LayoutState :=
  if env.hasWindow = false then
    { mode := Mode.full, visible := navItems.take 3, hidden := navItems.drop 3 }
  else if env.innerWidth < 768 then
    { mode := Mode.mobile, visible := navItems.take 3, hidden := navItems.drop 3 }
  else
    layoutForBudget env (calculateAvailableSpace env)

/-- JavaScript Math.round: round half toward positive infinity. -/
def jsRound (q : ℚ) : ℤ := ⌊q + 1 / 2⌋

/-- Zoom estimate used by getLabel (Navigation.jsx line 495):
Math.round(window.outerWidth / window.innerWidth * 100), with the division
carried out exactly in ℚ. -/
def zoomLevel (env : Env) : ℤ :=
  jsRound ((env.outerWidth : ℚ) / (env.innerWidth : ℚ) * 100)

/-- Embedding of the per-item getLabel closure (Navigation.jsx lines
488-507): full shows the label; compact shows shortLabel or label, except a
hardcoded dashboard special case at zoom 100-110 which keeps the full
label; icon shows no text; default shows the label. -/
def getLabel (env : Env) (navigationMode : Mode) (item : NavItem) : Option String :=
  match navigationMode with
  | Mode.full => some item.label
  | Mode.compact =>
      if item.id = "dashboard" ∧ env.hasWindow = true then
        (if 100 ≤ zoomLevel env ∧ zoomLevel env ≤ 110 then some item.label
         else some (if item.shortLabel ≠ "" then item.shortLabel else item.label))
      else some (if item.shortLabel ≠ "" then item.shortLabel else item.label)
  | Mode.icon => none
  | Mode.mobile => some item.label

/-- The title attribute of a visible item button (Navigation.jsx line 516):
the full label as hover text in icon mode, absent otherwise. -/
def buttonTitle (navigationMode : Mode) (item : NavItem) : Option String :=
  if navigationMode = Mode.icon then some item.label else none

/-- The pieces of markup emitted by the component that the claims speak
about: the desktop item buttons and More trigger (Navigation.jsx lines
480-581), and the always-present mobile bar (lines 775-819), whose More
trigger and dropdown use the fixed navItems rather than the computed
state. -/
structure RenderedNav where
  desktopItems : List NavItem
  desktopMoreTrigger : Bool
  mobileItems : List NavItem
  mobileMoreTrigger : Bool
  mobileDropdownItems : List NavItem
deriving DecidableEq, Repr

/-- Render model: the desktop More trigger is guarded by
hiddenItems.length > 0 (Navigation.jsx line 581); the mobile More trigger
(lines 799-819) carries no guard at all. -/
def renderNav (visibleItems hiddenItems : List NavItem) : RenderedNav :=
  { desktopItems := visibleItems
  , desktopMoreTrigger := decide (0 < hiddenItems.length)
  , mobileItems := navItems.take 3
  , mobileMoreTrigger := true
  , mobileDropdownItems := navItems.drop 3 }

/-! Concrete environments used by the counterexamples and witnesses. -/

/-- A text-measurement surface reporting width 0 for every string. -/
def zeroMeasure : String → String → ℤ := fun _ _ => 0

/-- A non-browser environment: no window object. -/
def envNoWin : Env :=
  { hasWindow := false, innerWidth := 0, outerWidth := 0, containerWidth := none,
    measureText := zeroMeasure, navigationMode := Mode.full }

/-- A 500px-wide mobile viewport. -/
def envMob : Env :=
  { hasWindow := true, innerWidth := 500, outerWidth := 500, containerWidth := none,
    measureText := zeroMeasure, navigationMode := Mode.full }

/-- A degenerate 50px-wide window. -/
def envTiny : Env :=
  { hasWindow := true, innerWidth := 50, outerWidth := 50, containerWidth := none,
    measureText := zeroMeasure, navigationMode := Mode.full }

/-- A wide desktop viewport with a mounted 2000px container and negligible
text widths, so that every item fits directly. -/
def envWide : Env :=
  { hasWindow := true, innerWidth := 2000, outerWidth := 2000, containerWidth := some 2000,
    measureText := zeroMeasure, navigationMode := Mode.full }

/-- A measurement surface on which every full-mode item is 200px wide and
every compact-mode item is 100px wide (text 128px at 16px font, 28px at
15px font, plus the 72px chrome). -/
def stepMeasure : String → String → ℤ :=
  fun font _ => if font = "600 15px Inter, system-ui, sans-serif" then 28 else 128

/-- A desktop environment using stepMeasure. -/
def envStep : Env :=
  { hasWindow := true, innerWidth := 1000, outerWidth := 1000, containerWidth := none,
    measureText := stepMeasure, navigationMode := Mode.full }

/-- A desktop environment at 100 percent zoom (outerWidth = innerWidth). -/
def envZoom100 : Env :=
  { hasWindow := true, innerWidth := 1000, outerWidth := 1000, containerWidth := none,
    measureText := zeroMeasure, navigationMode := Mode.compact }

/-! Structural lemmas about the greedy pass and the final layout shape. -/

/-- The greedy loop always returns a prefix of its input list. -/
theorem greedyAdd_eq_take (m : NavItem → ℤ) (budget : ℤ) :
    ∀ (l : List NavItem) (cur : ℤ), ∃ k, k ≤ l.length ∧ greedyAdd m budget l cur = l.take k := by
  intro l
  induction l with
  | nil => intro cur; exact ⟨0, by simp, rfl⟩
  | cons i rest ih =>
    intro cur
    by_cases hc : cur + m i ≤ budget
    · obtain ⟨k, hk, he⟩ := ih (cur + m i)
      refine ⟨k + 1, by simpa using hk, ?_⟩
      simp [greedyAdd, hc, he]
    · exact ⟨0, by simp, by simp [greedyAdd, hc]⟩

/-- Shrinking the budget can only shorten the greedy prefix. -/
theorem greedyAdd_length_mono (m : NavItem → ℤ) {b b' : ℤ} (h : b' ≤ b) :
    ∀ (l : List NavItem) (cur : ℤ),
      (greedyAdd m b' l cur).length ≤ (greedyAdd m b l cur).length := by
  intro l
  induction l with
  | nil => intro cur; simp [greedyAdd]
  | cons i rest ih =>
    intro cur
    by_cases hc : cur + m i ≤ b'
    · have hcb : cur + m i ≤ b := le_trans hc h
      simp only [greedyAdd, if_pos hc, if_pos hcb, List.length_cons]
      exact Nat.succ_le_succ (ih (cur + m i))
    · simp [greedyAdd, hc]

/-- The greedy prefix never exceeds the input list. -/
theorem greedyAdd_length_le (m : NavItem → ℤ) (budget : ℤ) :
    ∀ (l : List NavItem) (cur : ℤ), (greedyAdd m budget l cur).length ≤ l.length := by
  intro l cur
  obtain ⟨k, hk, he⟩ := greedyAdd_eq_take m budget l cur
  rw [he, List.length_take]
  exact Nat.min_le_right k l.length

/-- Sorting a visible set of the shape core plus a dynamic prefix is the
identity: such a set is already in ascending priority order. -/
theorem sortByPriority_core_take : ∀ k, k < 7 →
    sortByPriority (coreItems ++ dynamicItems.take k) = coreItems ++ dynamicItems.take k := by
  decide

/-- The hidden-item computation of the final step recovers exactly the
dynamic items beyond the greedy prefix. -/
theorem hiddenFilter_core_take : ∀ k, k < 7 →
    navItems.filter
      (fun item => !((coreItems ++ dynamicItems.take k).any (fun v => v.id == item.id)))
      = dynamicItems.drop k := by
  decide

/-- The finishing step applied to a core-plus-prefix visible set. -/
theorem finish_core_take (mode : Mode) (k : Nat) (hk : k < 7) :
    finish mode (coreItems ++ dynamicItems.take k) =
      { mode := mode
      , visible := coreItems ++ dynamicItems.take k
      , hidden := dynamicItems.drop k } := by
  simp only [finish, sortByPriority_core_take k hk]
  rw [hiddenFilter_core_take k hk]

/-- The budget-driven layout partitions the item set as the three core
items followed by a priority prefix of the dynamic items. -/
theorem layoutForBudget_shape (env : Env) (b : ℤ) :
    ∃ k, k ≤ 6 ∧
      (layoutForBudget env b).visible = coreItems ++ dynamicItems.take k ∧
      (layoutForBudget env b).hidden = dynamicItems.drop k := by
  have hdyn : dynamicItems.length = 6 := by decide
  unfold layoutForBudget
  split_ifs with h1 h2
  · obtain ⟨k, hk, he⟩ :=
      greedyAdd_eq_take (fun item => measureItemWidth env item Mode.full) b dynamicItems
        ((coreItems.map (fun item => measureItemWidth env item Mode.full)).sum)
    rw [hdyn] at hk
    refine ⟨k, hk, ?_⟩
    unfold fullPass
    rw [he, finish_core_take Mode.full k (by omega)]
    exact ⟨rfl, rfl⟩
  · obtain ⟨k, hk, he⟩ :=
      greedyAdd_eq_take (fun _ => 60) b dynamicItems (60 * coreItems.length)
    rw [hdyn] at hk
    refine ⟨k, hk, ?_⟩
    unfold iconPass
    rw [he, finish_core_take Mode.icon k (by omega)]
    exact ⟨rfl, rfl⟩
  · obtain ⟨k, hk, he⟩ :=
      greedyAdd_eq_take (fun item => measureItemWidth env item Mode.compact) b dynamicItems
        ((coreItems.map (fun item => measureItemWidth env item Mode.compact)).sum)
    rw [hdyn] at hk
    refine ⟨k, hk, ?_⟩
    unfold compactPass
    rw [he, finish_core_take Mode.compact k (by omega)]
    exact ⟨rfl, rfl⟩

/-- Every layout the component can produce partitions the item set as the
three core items followed by a priority prefix of the dynamic items, with
the remaining dynamic items hidden. -/
theorem calculateVisibleItems_shape (env : Env) :
    ∃ k, k ≤ 6 ∧
      (calculateVisibleItems env).visible = coreItems ++ dynamicItems.take k ∧
      (calculateVisibleItems env).hidden = dynamicItems.drop k := by
  have hbase : navItems.take 3 = coreItems ++ dynamicItems.take 0 ∧
      navItems.drop 3 = dynamicItems.drop 0 := by decide
  unfold calculateVisibleItems
  split_ifs with hw hm
  · exact ⟨0, by omega, hbase.1, hbase.2⟩
  · exact ⟨0, by omega, hbase.1, hbase.2⟩
  · exact layoutForBudget_shape env (calculateAvailableSpace env)

/-- Inserting one item grows a list by one. -/
theorem insertP_length (a : NavItem) : ∀ l : List NavItem, (insertP a l).length = l.length + 1 := by
  intro l
  induction l with
  | nil => rfl
  | cons b t ih =>
    by_cases hb : b.priority ≤ a.priority <;> simp [insertP, hb, ih]

/-- Sorting preserves length. -/
theorem sortByPriority_length : ∀ l : List NavItem, (sortByPriority l).length = l.length := by
  intro l
  induction l with
  | nil => rfl
  | cons a t ih =>
    show (insertP a (sortByPriority t)).length = t.length + 1
    rw [insertP_length, ih]

/-- The finishing step keeps the chosen mode. -/
theorem finish_mode (m : Mode) (v : List NavItem) : (finish m v).mode = m := rfl

/-- The finishing step keeps the number of visible items. -/
theorem finish_visible_length (m : Mode) (v : List NavItem) :
    (finish m v).visible.length = v.length :=
  sortByPriority_length v

/-- Shrinking the budget can only shorten the full-mode pass. -/
theorem fullPass_length_mono (env : Env) {b b' : ℤ} (h : b' ≤ b) :
    (fullPass env b').length ≤ (fullPass env b).length := by
  unfold fullPass
  simp only [List.length_append]
  exact Nat.add_le_add_left (greedyAdd_length_mono _ h _ _) _

/-- Shrinking the budget can only shorten the compact-mode pass. -/
theorem compactPass_length_mono (env : Env) {b b' : ℤ} (h : b' ≤ b) :
    (compactPass env b').length ≤ (compactPass env b).length := by
  unfold compactPass
  simp only [List.length_append]
  exact Nat.add_le_add_left (greedyAdd_length_mono _ h _ _) _

/-- Shrinking the budget can only shorten the icon-mode pass. -/
theorem iconPass_length_mono (env : Env) {b b' : ℤ} (h : b' ≤ b) :
    (iconPass env b').length ≤ (iconPass env b).length := by
  unfold iconPass
  simp only [List.length_append]
  exact Nat.add_le_add_left (greedyAdd_length_mono _ h _ _) _

/-- The full-mode pass can place at most all nine items. -/
theorem fullPass_length_le (env : Env) (b : ℤ) :
    (fullPass env b).length ≤ navItems.length := by
  have hg := greedyAdd_length_le (fun item => measureItemWidth env item Mode.full) b
    dynamicItems ((coreItems.map (fun item => measureItemWidth env item Mode.full)).sum)
  have h1 : coreItems.length = 3 := by decide
  have h2 : dynamicItems.length = 6 := by decide
  have h3 : navItems.length = 9 := by decide
  unfold fullPass
  simp only [List.length_append]
  omega

/-- Numeric index of a mode along the richness order full, compact, icon,
mobile. -/
def modeIdx : Mode → Nat
  | Mode.full => 0
  | Mode.compact => 1
  | Mode.icon => 2
  | Mode.mobile => 3

/-- Same desktop environment as envStep but with a mounted 520px container,
giving the budget max(520 - 80 - 40, 200) = 400. -/
def envStepWide : Env :=
  { hasWindow := true, innerWidth := 1000, outerWidth := 1000, containerWidth := some 520,
    measureText := stepMeasure, navigationMode := Mode.full }

/-- Identical to envStepWide except for a 510px container, giving the
budget 390. -/
def envStepNarrow : Env :=
  { hasWindow := true, innerWidth := 1000, outerWidth := 1000, containerWidth := some 510,
    measureText := stepMeasure, navigationMode := Mode.full }

/-- C1 counterexample: with the fixed item set and fixed text widths
(stepMeasure: 200px per item in full mode, 100px in compact mode), shrinking
the container from 520px to 510px shrinks the budget from 400 to 390, yet
the number of directly visible items grows from 4 (compact mode) to 6 (icon
mode): the claimed non-increase of the visible count fails. -/
theorem c1_count_counterexample :
    calculateAvailableSpace envStepNarrow ≤ calculateAvailableSpace envStepWide ∧
    calculateAvailableSpace envStepNarrow ≠ calculateAvailableSpace envStepWide ∧
    (calculateVisibleItems envStepWide).mode = Mode.compact ∧
    (calculateVisibleItems envStepWide).visible.length = 4 ∧
    (calculateVisibleItems envStepNarrow).mode = Mode.icon ∧
    (calculateVisibleItems envStepNarrow).visible.length = 6 := by
  decide

/-- C1 amended: for a fixed item set and fixed widths, a smaller budget
never moves the selected mode backward along the order full, compact, icon,
mobile, and the visible count is non-increasing whenever the selected mode
is unchanged; the count may grow only when the shrink advances the mode. -/
theorem c1_mode_monotone_amended (env : Env) (b b' : ℤ) (h : b' ≤ b) :
    modeIdx (layoutForBudget env b).mode ≤ modeIdx (layoutForBudget env b').mode ∧
    ((layoutForBudget env b').mode = (layoutForBudget env b).mode →
      (layoutForBudget env b').visible.length ≤ (layoutForBudget env b).visible.length) := by
  have hFm := fullPass_length_mono env h
  have hCm := compactPass_length_mono env h
  have hIm := iconPass_length_mono env h
  have hFle := fullPass_length_le env b
  unfold layoutForBudget
  by_cases h1' : (fullPass env b').length = navItems.length
  · have h1 : (fullPass env b).length = navItems.length := by omega
    rw [if_pos h1, if_pos h1']
    refine ⟨by rw [finish_mode, finish_mode], fun _ => ?_⟩
    rw [finish_visible_length, finish_visible_length]
    omega
  · rw [if_neg h1']
    by_cases h1 : (fullPass env b).length = navItems.length
    · rw [if_pos h1]
      by_cases h2' : (compactPass env b').length < 4
      · rw [if_pos h2']
        refine ⟨by rw [finish_mode, finish_mode]; decide, fun hmode => ?_⟩
        rw [finish_mode, finish_mode] at hmode
        exact Mode.noConfusion hmode
      · rw [if_neg h2']
        refine ⟨by rw [finish_mode, finish_mode]; decide, fun hmode => ?_⟩
        rw [finish_mode, finish_mode] at hmode
        exact Mode.noConfusion hmode
    · rw [if_neg h1]
      by_cases h2' : (compactPass env b').length < 4
      · rw [if_pos h2']
        by_cases h2 : (compactPass env b).length < 4
        · rw [if_pos h2]
          refine ⟨by rw [finish_mode, finish_mode], fun _ => ?_⟩
          rw [finish_visible_length, finish_visible_length]
          exact hIm
        · rw [if_neg h2]
          refine ⟨by rw [finish_mode, finish_mode]; decide, fun hmode => ?_⟩
          rw [finish_mode, finish_mode] at hmode
          exact Mode.noConfusion hmode
      · have h2 : ¬ (compactPass env b).length < 4 := by omega
        rw [if_neg h2', if_neg h2]
        refine ⟨by rw [finish_mode, finish_mode], fun _ => ?_⟩
        rw [finish_visible_length, finish_visible_length]
        exact hCm

/-- C1 amended witness at the counterexample budgets 400 and 390. -/
theorem c1_amended_witness :
    modeIdx (layoutForBudget envStep 400).mode ≤ modeIdx (layoutForBudget envStep 390).mode ∧
    ((layoutForBudget envStep 390).mode = (layoutForBudget envStep 400).mode →
      (layoutForBudget envStep 390).visible.length ≤ (layoutForBudget envStep 400).visible.length) :=
  c1_mode_monotone_amended envStep 400 390 (by decide)

/-- C2 counterexample: in envWide every item fits directly (hiddenItems is
empty and no More trigger is rendered), yet the budget had already
subtracted the 80px More-button reservation and the 40px buffer from the
2000px container: the reservation is not conditioned on overflow being
found necessary, and no second budget pass exists. -/
theorem c2_trigger_reserved_counterexample :
    (calculateVisibleItems envWide).hidden = [] ∧
    (renderNav (calculateVisibleItems envWide).visible
      (calculateVisibleItems envWide).hidden).desktopMoreTrigger = false ∧
    calculateAvailableSpace envWide = 2000 - 80 - 40 ∧
    calculateAvailableSpace envWide ≠ 2000 := by
  decide

/-- C2 amended: whenever the container element is measurable,
calculateAvailableSpace subtracts the 80px More-button width and the 40px
buffer unconditionally, independent of the items, their widths, and of
whether any item overflows; the layout is then computed in a single pass
per mode on that one budget. -/
theorem c2_unconditional_reserve_amended (env : Env) (cw : ℤ)
    (hw : env.hasWindow = true) (hm : ¬ env.innerWidth < 768)
    (hc : env.containerWidth = some cw) :
    calculateAvailableSpace env = max (cw - 80 - 40) 200 ∧
    calculateVisibleItems env = layoutForBudget env (max (cw - 80 - 40) 200) := by
  have hne : ¬ env.hasWindow = false := by simp [hw]
  have hspace : calculateAvailableSpace env = max (cw - 80 - 40) 200 := by
    unfold calculateAvailableSpace
    rw [if_neg hne, if_neg hm, hc]
  refine ⟨hspace, ?_⟩
  unfold calculateVisibleItems
  rw [if_neg hne, if_neg hm, hspace]

/-- C2 amended witness at the 2000px container of envWide. -/
theorem c2_amended_witness :
    calculateAvailableSpace envWide = max (2000 - 80 - 40) 200 ∧
    calculateVisibleItems envWide = layoutForBudget envWide (max (2000 - 80 - 40) 200) :=
  c2_unconditional_reserve_amended envWide 2000 rfl (by decide) rfl

/-- Partition facts for every reachable visible and hidden pair. -/
theorem partition_core_take : ∀ k, k < 7 →
    ((coreItems ++ dynamicItems.take k) ++ dynamicItems.drop k).Perm navItems ∧
    ((coreItems ++ dynamicItems.take k) ++ dynamicItems.drop k).Nodup ∧
    (coreItems ++ dynamicItems.take k).Pairwise (fun a b => a.priority < b.priority) ∧
    (dynamicItems.drop k).Pairwise (fun a b => a.priority < b.priority) := by
  decide

/-- C3: for every environment and budget, visibleItems and hiddenItems
partition the configured item set: together they are a permutation of
navItems, contain no duplicates (hence are disjoint), and each group is in
strictly ascending priority order. -/
theorem c3_partition (env : Env) :
    ((calculateVisibleItems env).visible ++ (calculateVisibleItems env).hidden).Perm navItems ∧
    ((calculateVisibleItems env).visible ++ (calculateVisibleItems env).hidden).Nodup ∧
    (calculateVisibleItems env).visible.Pairwise (fun a b => a.priority < b.priority) ∧
    (calculateVisibleItems env).hidden.Pairwise (fun a b => a.priority < b.priority) := by
  obtain ⟨k, hk, hv, hh⟩ := calculateVisibleItems_shape env
  rw [hv, hh]
  exact partition_core_take k (by omega)

/-- C3 witness: the partition invariant instantiated at envWide. -/
theorem c3_partition_witness :
    ((calculateVisibleItems envWide).visible ++ (calculateVisibleItems envWide).hidden).Perm navItems ∧
    ((calculateVisibleItems envWide).visible ++ (calculateVisibleItems envWide).hidden).Nodup ∧
    (calculateVisibleItems envWide).visible.Pairwise (fun a b => a.priority < b.priority) ∧
    (calculateVisibleItems envWide).hidden.Pairwise (fun a b => a.priority < b.priority) :=
  c3_partition envWide

/-- Membership facts for the always-visible items in every reachable
layout. -/
theorem core_mem_take : ∀ k, k < 7 → ∀ item ∈ navItems, item.alwaysVisible = true →
    item ∈ coreItems ++ dynamicItems.take k ∧ ¬ item ∈ dynamicItems.drop k := by
  decide

/-- C4: in every environment every alwaysVisible item is among the visible
items and never among the hidden ones, and in the mobile branch (viewport
below 768px) those items are still visible, under mode mobile. -/
theorem c4_always_visible (env : Env) :
    (∀ item ∈ navItems, item.alwaysVisible = true →
      item ∈ (calculateVisibleItems env).visible ∧
      ¬ item ∈ (calculateVisibleItems env).hidden) ∧
    (env.hasWindow = true → env.innerWidth < 768 →
      (calculateVisibleItems env).mode = Mode.mobile) := by
  constructor
  · intro item hmem hav
    obtain ⟨k, hk, hv, hh⟩ := calculateVisibleItems_shape env
    rw [hv, hh]
    exact core_mem_take k (by omega) item hmem hav
  · intro hw hm
    have hne : ¬ env.hasWindow = false := by simp [hw]
    unfold calculateVisibleItems
    rw [if_neg hne, if_pos hm]

/-- C4 witness: the always-visible guarantee instantiated in the mobile
environment envMob at the Dashboard item. -/
theorem c4_always_visible_witness :
    (itemDashboard ∈ (calculateVisibleItems envMob).visible ∧
      ¬ itemDashboard ∈ (calculateVisibleItems envMob).hidden) ∧
    (calculateVisibleItems envMob).mode = Mode.mobile :=
  ⟨(c4_always_visible envMob).1 itemDashboard (by decide) rfl,
   (c4_always_visible envMob).2 rfl (by decide)⟩

/-- C5 counterexample: a 50px-wide window takes the mobile branch of
calculateAvailableSpace and yields 50 - 100 = -50, a negative budget: the
claimed non-negative clamped floor does not hold on the mobile branch. -/
theorem c5_negative_budget_counterexample :
    calculateAvailableSpace envTiny = -50 ∧ calculateAvailableSpace envTiny < 0 := by
  decide

/-- C5 amended: the computation is total and the windowless and desktop
branches are clamped (400 fixed, and a 200px floor respectively), but the
mobile branch returns windowWidth - 100 with no clamp, which is zero or
negative whenever the window is at most 100px wide. -/
theorem c5_budget_clamp_amended (env : Env) :
    (env.hasWindow = false → calculateAvailableSpace env = 400) ∧
    (env.hasWindow = true → env.innerWidth < 768 →
      calculateAvailableSpace env = env.innerWidth - 100) ∧
    (env.hasWindow = true → ¬ env.innerWidth < 768 →
      200 ≤ calculateAvailableSpace env) := by
  refine ⟨?_, ?_, ?_⟩
  · intro h
    unfold calculateAvailableSpace
    rw [if_pos h]
  · intro hw hm
    have hne : ¬ env.hasWindow = false := by simp [hw]
    unfold calculateAvailableSpace
    rw [if_neg hne, if_pos hm]
  · intro hw hm
    have hne : ¬ env.hasWindow = false := by simp [hw]
    unfold calculateAvailableSpace
    rw [if_neg hne, if_neg hm]
    cases hc : env.containerWidth with
    | some cw => exact le_max_right _ _
    | none => exact le_max_right _ _

/-- C5 amended witness: the desktop clamp at envStep (budget 280) and the
unclamped mobile branch at envTiny. -/
theorem c5_amended_witness :
    200 ≤ calculateAvailableSpace envStep ∧
    calculateAvailableSpace envTiny = envTiny.innerWidth - 100 :=
  ⟨(c5_budget_clamp_amended envStep).2.2 rfl (by decide),
   (c5_budget_clamp_amended envTiny).2.1 rfl (by decide)⟩

/-- The zoom estimate at envZoom100 (outerWidth = innerWidth = 1000) is
exactly 100 percent. -/
theorem zoomLevel_envZoom100 : zoomLevel envZoom100 = 100 := by
  norm_num [zoomLevel, jsRound, envZoom100]

/-- C6 counterexample: at 100 percent zoom the Dashboard item in compact
mode displays its full label "Dashboard" even though its short label
"Dash" exists: compact mode does not show the short label for this item,
a hardcoded per-item special case. -/
theorem c6_dashboard_special_case_counterexample :
    getLabel envZoom100 Mode.compact itemDashboard = some "Dashboard" ∧
    itemDashboard.shortLabel = "Dash" ∧ some "Dashboard" ≠ some "Dash" := by
  have h : zoomLevel envZoom100 = 100 := by norm_num [zoomLevel, jsRound, envZoom100]
  refine ⟨?_, rfl, by decide⟩
  unfold getLabel
  rw [if_pos ⟨rfl, rfl⟩, if_pos ⟨h.ge, le_trans h.le (by decide)⟩]
  rfl

/-- C6 amended: the displayed label depends only on the mode, except one
per-item special case: full mode shows the full label, icon mode shows no
text and exposes the full label as the hover title, compact mode shows the
short label (falling back to the full label when it is empty) for every
item other than Dashboard, and the Dashboard item in compact mode keeps its
full label whenever the zoom estimate lies in 100 to 110. -/
theorem c6_label_by_mode_amended (env : Env) (item : NavItem) :
    getLabel env Mode.full item = some item.label ∧
    getLabel env Mode.icon item = none ∧
    buttonTitle Mode.icon item = some item.label ∧
    buttonTitle Mode.full item = none ∧
    (item.id ≠ "dashboard" →
      getLabel env Mode.compact item =
        some (if item.shortLabel ≠ "" then item.shortLabel else item.label)) ∧
    (item.id = "dashboard" → env.hasWindow = true →
      100 ≤ zoomLevel env → zoomLevel env ≤ 110 →
      getLabel env Mode.compact item = some item.label) := by
  refine ⟨rfl, rfl, rfl, rfl, ?_, ?_⟩
  · intro hne
    unfold getLabel
    rw [if_neg]
    intro hcon
    exact hne hcon.1
  · intro hid hw h1 h2
    unfold getLabel
    rw [if_pos ⟨hid, hw⟩, if_pos ⟨h1, h2⟩]

/-- C6 amended witness: the compact-mode rules instantiated at envZoom100
for the Giving item (short label shown) and the Dashboard item (full label
kept at 100 percent zoom). -/
theorem c6_amended_witness :
    getLabel envZoom100 Mode.compact itemGiving =
      some (if itemGiving.shortLabel ≠ "" then itemGiving.shortLabel else itemGiving.label) ∧
    getLabel envZoom100 Mode.compact itemDashboard = some itemDashboard.label :=
  ⟨(c6_label_by_mode_amended envZoom100 itemGiving).2.2.2.2.1 (by decide),
   (c6_label_by_mode_amended envZoom100 itemDashboard).2.2.2.2.2 rfl rfl
     zoomLevel_envZoom100.ge (le_trans zoomLevel_envZoom100.le (by decide))⟩

/-- C7 counterexample: in a non-visual environment measureItemWidth returns
the fixed 80 for both the 6-character label "Giving" and the 9-character
label "Dashboard": the fallback estimate does not scale with the label
length, and it differs from a 9px-per-character estimate. -/
theorem c7_constant_fallback_counterexample :
    measureItemWidth envNoWin itemGiving Mode.full = 80 ∧
    measureItemWidth envNoWin itemDashboard Mode.full = 80 ∧
    itemGiving.label.length ≠ itemDashboard.label.length ∧
    measureItemWidth envNoWin itemGiving Mode.full ≠ 9 * (itemGiving.label.length : ℤ) := by
  decide

/-- C7 amended: when the window object is unavailable measureItemWidth
falls back to the fixed constant 80 for every item and mode, independent of
the label; the recovery is total and never surfaced to the caller. -/
theorem c7_fallback_amended (env : Env) (item : NavItem) (mode : Mode)
    (h : env.hasWindow = false) :
    measureItemWidth env item mode = 80 := by
  unfold measureItemWidth
  rw [if_pos h]

/-- C7 amended witness at the Settings item in compact mode. -/
theorem c7_amended_witness : measureItemWidth envNoWin itemSettings Mode.compact = 80 :=
  c7_fallback_amended envNoWin itemSettings Mode.compact rfl

/-- C8: for every environment with a window narrower than 768px,
calculateVisibleItems immediately returns mode mobile with exactly the
three lowest-priority items visible and the six remaining items hidden,
independent of the container, the text measurement surface and the current
mode (no budget computation is consulted). -/
theorem c8_mobile_branch (env : Env) (hw : env.hasWindow = true)
    (hm : env.innerWidth < 768) :
    calculateVisibleItems env =
      { mode := Mode.mobile
      , visible := (sortByPriority navItems).take 3
      , hidden := (sortByPriority navItems).drop 3 } := by
  have hne : ¬ env.hasWindow = false := by simp [hw]
  unfold calculateVisibleItems
  rw [if_neg hne, if_pos hm]
  decide

/-- C8 witness at the 500px viewport envMob. -/
theorem c8_mobile_branch_witness :
    calculateVisibleItems envMob =
      { mode := Mode.mobile
      , visible := (sortByPriority navItems).take 3
      , hidden := (sortByPriority navItems).drop 3 } :=
  c8_mobile_branch envMob rfl (by decide)

/-- C9 counterexample: with an empty hiddenItems state (every item directly
visible) the desktop More trigger is omitted, but the More trigger of the
mobile bar is still rendered (it carries no guard and lists the fixed tail
of navItems): the trigger is not omitted entirely when hiddenItems is empty. -/
theorem c9_mobile_trigger_counterexample :
    (renderNav navItems []).desktopMoreTrigger = false ∧
    (renderNav navItems []).mobileMoreTrigger = true ∧
    (renderNav navItems []).mobileDropdownItems ≠ [] := by
  decide

/-- C9 amended: the desktop More trigger is rendered exactly when
hiddenItems is non-empty, while the More trigger of the mobile layout is
rendered unconditionally (its markup is only hidden by CSS on wide
viewports) and enumerates the fixed items after the first three. -/
theorem c9_trigger_iff_amended (visibleItems hiddenItems : List NavItem) :
    ((renderNav visibleItems hiddenItems).desktopMoreTrigger = true ↔ hiddenItems ≠ []) ∧
    (renderNav visibleItems hiddenItems).mobileMoreTrigger = true ∧
    (renderNav visibleItems hiddenItems).mobileDropdownItems = navItems.drop 3 := by
  refine ⟨?_, rfl, rfl⟩
  cases hiddenItems <;> simp [renderNav]

/-- C9 amended witness at a state hiding exactly the Groups item. -/
theorem c9_amended_witness :
    ((renderNav [] [itemGroups]).desktopMoreTrigger = true ↔ [itemGroups] ≠ []) ∧
    (renderNav [] [itemGroups]).mobileMoreTrigger = true ∧
    (renderNav [] [itemGroups]).mobileDropdownItems = navItems.drop 3 :=
  c9_trigger_iff_amended [] [itemGroups]

/-- C10: with no window object, calculateVisibleItems returns the fixed
layout mode full with exactly the first three declared items visible and
the rest hidden, and measureItemWidth returns the constant 80 for every
item and mode. -/
theorem c10_no_window (env : Env) (h : env.hasWindow = false) :
    calculateVisibleItems env =
      { mode := Mode.full, visible := navItems.take 3, hidden := navItems.drop 3 } ∧
    ∀ item mode, measureItemWidth env item mode = 80 := by
  constructor
  · unfold calculateVisibleItems
    rw [if_pos h]
  · intro item mode
    unfold measureItemWidth
    rw [if_pos h]

/-- C10 witness at envNoWin and the Calendar item in icon mode. -/
theorem c10_no_window_witness :
    calculateVisibleItems envNoWin =
      { mode := Mode.full, visible := navItems.take 3, hidden := navItems.drop 3 } ∧
    measureItemWidth envNoWin itemCalendar Mode.icon = 80 :=
  ⟨(c10_no_window envNoWin rfl).1, (c10_no_window envNoWin rfl).2 itemCalendar Mode.icon⟩
